import Mathlib

/-!
Verification of the event publish/dispatch engine in
`pkg/services/eventactions/manager/service.go`.

The Go code is shallowly embedded: JSON documents become an inductive
`Json` type (Go `json.Marshal` of the structs used here always succeeds,
and the event payload is taken to be an already-serializable JSON value,
matching the hypotheses of the claims), HTTP requests become a record
with a structured body, the HTTP client becomes a function parameter,
and the worker-pool concurrency of `Publish` becomes a small-step
transition system over an explicit dispatcher state.
-/

/-- A JSON value.  Payloads handed to `Publish` are modelled as elements
of this type; `json.Marshal` on such a value always succeeds. -/
inductive Json where
  | null
  | bool (b : Bool)
  | num (n : Int)
  | str (s : String)
  | arr (elems : List Json)
  | obj (fields : List (String × Json))

/-- Field lookup in a JSON object: the decoding step used to read back a
field of a marshalled request body. -/
def Json.lookup : Json → String → Option Json
  | .obj fields, key => fields.lookup key
  | _, _ => none

/-- Modelled from the spec: the action type tag for code-runner actions
(`eventactions.ActionTypeCode`; the constant lives outside the provided
sources).  Only its distinctness from the webhook tag matters. -/
def ActionTypeCode : String := "code"

/-- Modelled from the spec: the action type tag for webhook actions
(`eventactions.ActionTypeWebhook`). -/
def ActionTypeWebhook : String := "webhook"

/-- Modelled from the spec: `eventactions.EventActionDetailsDTO`, the
action definition as used by `service.go` — id, orgId, name, a string
type tag, url, script, scriptLanguage and runnerSecret (spec section 3,
Data Model). -/
structure EventActionDetailsDTO where
  id : Int
  orgId : Int
  name : String
  type : String
  url : String
  script : String
  scriptLanguage : String
  runnerSecret : String

/-- Modelled from the spec: `eventactions.PublishEvent`, the webhook body
struct whose JSON encoding carries the keys `eventName`, `orgId` and
`payload` (spec sections 4.1 and 6). -/
structure PublishEvent where
  eventName : String
  orgId : Int
  payload : Json

/-- `json.Marshal` of a `PublishEvent`. -/
def PublishEvent.toJson (pe : PublishEvent) : Json :=
  .obj [("eventName", .str pe.eventName), ("orgId", .num pe.orgId),
        ("payload", pe.payload)]

/-- The `runnerMetadata` struct of `service.go` with JSON tags
`name`, `lang`, `entrypoint`. -/
structure RunnerMetadata where
  name : String
  lang : String
  entrypoint : String

/-- `json.Marshal` of `runnerMetadata`: Go emits struct fields in
declaration order. -/
def RunnerMetadata.toJson (m : RunnerMetadata) : Json :=
  .obj [("name", .str m.name), ("lang", .str m.lang),
        ("entrypoint", .str m.entrypoint)]

/-- Content of one multipart part: raw bytes (the uploaded script file)
or a JSON document. -/
inductive PartContent where
  | raw (s : String)
  | json (j : Json)

/-- One part of a multipart/form-data body: the form name from its
Content-Disposition, the optional filename, the part Content-Type, and
the content. -/
structure MultipartPart where
  name : String
  filename : Option String
  contentType : Option String
  content : PartContent

/-- An HTTP request body: either a JSON document or a multipart form. -/
inductive Body where
  | jsonBody (j : Json)
  | multipartBody (parts : List MultipartPart)

/-- An outbound HTTP request: method, URL, the headers explicitly set on
it (in the order `Header.Set` is called; `http.NewRequest` itself sets
none), and the body. -/
structure HttpRequest where
  method : String
  url : String
  headers : List (String × String)
  body : Body

/-- Header lookup on a request. -/
def HttpRequest.headerGet (req : HttpRequest) (key : String) : Option String :=
  req.headers.lookup key

/-- Errors of request construction: `json.Marshal` failure, or URL
parse / `http.NewRequest` / multipart-encoding failure.  In this
embedding payloads are `Json` values, so only the URL can fail. -/
inductive BuildError where
  | serializationError
  | requestConstructionError

/-- Models `net/url` parsing success: Go URL parsing fails on ASCII
control characters in the raw URL.  Both `url.JoinPath` and
`http.NewRequest` are gated on it. -/
def validURL (s : String) : Bool :=
  s.data.all (fun c => 0x20 ≤ c.toNat && c.toNat ≠ 0x7f)

/-- `url.JoinPath base elem` for a parsable base URL: appends the path
element with exactly one separating slash. -/
def joinPath (base elem : String) : String :=
  if base.data.getLast? = some '/' then base ++ elem else base ++ "/" ++ elem

/-- Placeholder for the randomly chosen multipart boundary of
`multipart.NewWriter`; no verified property depends on its value. -/
def multipartBoundary : String := "b"

/-- `w.FormDataContentType()` of `mime/multipart`. -/
def formDataContentType : String :=
  "multipart/form-data; boundary=" ++ multipartBoundary

/-- `createRunnerRequest` of `service.go`: marshals the runner metadata
(name, language, hard-coded entrypoint `file1`) and the payload, builds
a multipart body with the file part `file1` (via `CreateFormFile`, which
fixes filename `file1` and content type `application/octet-stream`),
the `metadata` part and the `event` part (both `application/json`), and
issues a POST to `JoinPath(action.URL, "execute")` with an
`Authorization: Bearer` header followed by the multipart Content-Type
header. -/
def createRunnerRequest (eventName : String) (eventPayload : Json)
    (action : EventActionDetailsDTO) : Except BuildError HttpRequest :=
  let metadata := RunnerMetadata.toJson
    { name := action.name, lang := action.scriptLanguage, entrypoint := "file1" }
  if validURL action.url then
    .ok
      { method := "POST"
        url := joinPath action.url "execute"
        headers := [("Authorization", "Bearer " ++ action.runnerSecret),
                    ("Content-Type", formDataContentType)]
        body := .multipartBody
          [ { name := "file1", filename := some "file1",
              contentType := some "application/octet-stream",
              content := .raw action.script },
            { name := "metadata", filename := none,
              contentType := some "application/json",
              content := .json metadata },
            { name := "event", filename := none,
              contentType := some "application/json",
              content := .json eventPayload } ] }
  else
    .error .requestConstructionError

/-- `createWebhookRequest` of `service.go`: marshals
`PublishEvent(eventName, action.OrgId, payload)` and issues a POST to
`action.URL` whose only header is `Content-Type: application/json`. -/
def createWebhookRequest (eventName : String) (eventPayload : Json)
    (action : EventActionDetailsDTO) : Except BuildError HttpRequest :=
  let body := PublishEvent.toJson
    { eventName := eventName, orgId := action.orgId, payload := eventPayload }
  if validURL action.url then
    .ok
      { method := "POST"
        url := action.url
        headers := [("Content-Type", "application/json")]
        body := .jsonBody body }
  else
    .error .requestConstructionError

/-- The outcome `s.client.Do(req)` followed by `io.ReadAll(response.Body)`
can have, from the point of view of `RunEventAction`: a transport error,
or a response with a status code whose body read succeeds or fails.
`RunEventAction` is parameterized over a function into this type in
place of the shared HTTP client. -/
inductive DoResult where
  | transportError
  | response (code : Nat) (bodyRead : Except Unit String)

/-- `eventactions.RunResponse`: status code and fully read body. -/
structure RunResponse where
  code : Nat
  body : String

/-- Errors `RunEventAction` can return (each is wrapped with
`fmt.Errorf` in the source; only the kind is modelled). -/
inductive RunError where
  | createRequestError
  | transportError
  | responseReadError

/-- Result of one `RunEventAction` call.  `crash` models the Go runtime
panic raised by calling a nil `createRequestFunc` — it is not a return
value: the worker goroutine (and with it the process) dies. -/
inductive RunOutcome where
  | ok (r : RunResponse)
  | err (e : RunError)
  | crash

/-- Whether an outcome is the nil-function-call panic. -/
def RunOutcome.isCrash : RunOutcome → Bool
  | .crash => true
  | _ => false

/-- The `switch action.Type` of `RunEventAction`: selects the request
builder; a type matching neither case leaves the Go function variable
nil, modelled as `none`. -/
def selectCreateRequest (t : String) :
    Option (String → Json → EventActionDetailsDTO → Except BuildError HttpRequest) :=
  if t = ActionTypeCode then some createRunnerRequest
  else if t = ActionTypeWebhook then some createWebhookRequest
  else none

/-- `RunEventAction` of `service.go`: select the builder by action type
(calling it unconditionally — a nil builder panics, `crash`), build the
request, perform it, read the whole response body, and return
`RunResponse(status, body)`; a failure at any stage is returned as an
error, and the status code is never inspected. -/
def RunEventAction (doRequest : HttpRequest → DoResult)
    (action : EventActionDetailsDTO) (eventName : String)
    (eventPayload : Json) : RunOutcome :=
  match selectCreateRequest action.type with
  | none => .crash
  | some createRequest =>
    match createRequest eventName eventPayload action with
    | .error _ => .err .createRequestError
    | .ok req =>
      match doRequest req with
      | .transportError => .err .transportError
      | .response code bodyRead =>
        match bodyRead with
        | .error _ => .err .responseReadError
        | .ok body => .ok { code := code, body := body }

/-- The sequential core of `Publish` in `service.go`: resolve the
subscribed actions (returning the resolution error unchanged on
failure, before any worker is spawned), otherwise run `RunEventAction`
once per resolved action — per-action failures are only logged — and
return nil.  `none` models the case where some worker panicked on a nil
builder, killing the process so that `Publish` never returns.  The
timing of the concurrent execution is modelled separately by
`DispatchStep`. -/
def Publish (resolved : Except String (List EventActionDetailsDTO))
    (doRequest : HttpRequest → DoResult) (eventName : String)
    (eventPayload : Json) : Option (Except String (List RunOutcome)) :=
  match resolved with
  | .error e => some (.error e)
  | .ok actions =>
    if (actions.map (fun a => RunEventAction doRequest a eventName eventPayload)).any
        RunOutcome.isCrash then
      none
    else
      some (.ok (actions.map
        (fun a => RunEventAction doRequest a eventName eventPayload)))

/-- The fixed worker pool size: `const numWorkers = 3` in `Publish`. -/
def numWorkers : Nat := 3

/-- State of one worker goroutine of `Publish`.  `notStarted`: the
goroutine was created by `go worker(jobs)` but has not yet run its first
statement (in particular has not executed `wg.Add(1)`); `idle`: inside
the `for action := range jobs` loop, not holding a job; `running j`:
executing `RunEventAction` for the job with index `j`; `exited`: the
channel was closed and drained, the deferred `wg.Done()` has run. -/
inductive WorkerState where
  | notStarted
  | idle
  | running (j : Nat)
  | exited

/-- Whether a worker is currently executing an action. -/
def WorkerState.isRunning : WorkerState → Bool
  | .running _ => true
  | _ => false

/-- Program counter of the goroutine calling `Publish`, after the
workers have been spawned: sending job `k` of `N` into the buffered
channel (the buffer holds all `N` jobs, so sends never block), then
`close(jobs)`, then blocked in `wg.Wait()`, then returned. -/
inductive MainState where
  | send (k : Nat)
  | wait
  | returned

/-- Dispatcher state of one `Publish` call with jobs numbered
`0, …, N-1`: the contents of the buffered `jobs` channel, whether it
has been closed, the three worker goroutines, the `sync.WaitGroup`
counter, the main goroutine, and the multiset of completed executions
in completion order. -/
structure DispatchState where
  jobs : List Nat
  closed : Bool
  workers : Fin numWorkers → WorkerState
  wg : Nat
  main : MainState
  completed : List Nat

/-- Initial dispatcher state: empty channel, no worker has run yet,
WaitGroup at zero, main about to send job 0. -/
def initDispatch : DispatchState :=
  { jobs := [], closed := false, workers := fun _ => .notStarted,
    wg := 0, main := .send 0, completed := [] }

/-- Interleaving semantics of the `Publish` worker pool, faithful to the
goroutine bodies in `service.go`.  Crucially, `workerStart` performs
`wg.Add(1)` inside the worker goroutine (its first action after the
`defer wg.Done()` is registered), and `mainReturn` lets `wg.Wait()`
return whenever the WaitGroup counter is zero — exactly the Go
semantics of the source. -/
inductive DispatchStep (N : Nat) : DispatchState → DispatchState → Prop where
  | mainSend (s : DispatchState) (k : Nat) (hpc : s.main = .send k) (hk : k < N) :
      DispatchStep N s { s with jobs := s.jobs ++ [k], main := .send (k + 1) }
  | mainClose (s : DispatchState) (hpc : s.main = .send N) :
      DispatchStep N s { s with closed := true, main := .wait }
  | mainReturn (s : DispatchState) (hpc : s.main = .wait) (hwg : s.wg = 0) :
      DispatchStep N s { s with main := .returned }
  | workerStart (s : DispatchState) (i : Fin numWorkers)
      (hw : s.workers i = .notStarted) :
      DispatchStep N s
        { s with workers := Function.update s.workers i .idle, wg := s.wg + 1 }
  | workerTake (s : DispatchState) (i : Fin numWorkers) (j : Nat) (rest : List Nat)
      (hw : s.workers i = .idle) (hj : s.jobs = j :: rest) :
      DispatchStep N s
        { s with workers := Function.update s.workers i (.running j), jobs := rest }
  | workerFinish (s : DispatchState) (i : Fin numWorkers) (j : Nat)
      (hw : s.workers i = .running j) :
      DispatchStep N s
        { s with workers := Function.update s.workers i .idle,
                 completed := s.completed ++ [j] }
  | workerExit (s : DispatchState) (i : Fin numWorkers)
      (hw : s.workers i = .idle) (hj : s.jobs = []) (hc : s.closed = true) :
      DispatchStep N s
        { s with workers := Function.update s.workers i .exited, wg := s.wg - 1 }

/-- Reachability of a dispatcher state in some interleaving of a
`Publish` call with `N` resolved actions. -/
def DispatchReachable (N : Nat) (s : DispatchState) : Prop :=
  Relation.ReflTransGen (DispatchStep N) initDispatch s

/-- Number of actions whose network call is in flight: workers in the
`running` state. -/
def inflight (s : DispatchState) : Nat :=
  ((List.finRange numWorkers).filter (fun i => (s.workers i).isRunning)).length

/-- A concrete webhook action (action `A` of the spec example
scenario). -/
def sampleWebhookAction : EventActionDetailsDTO :=
  { id := 1, orgId := 1, name := "A", type := "webhook",
    url := "http://h/hook", script := "", scriptLanguage := "",
    runnerSecret := "" }

/-- A concrete code-runner action (action `B` of the spec example
scenario). -/
def sampleRunnerAction : EventActionDetailsDTO :=
  { id := 2, orgId := 1, name := "B", type := "code", url := "http://r",
    script := "print(1)", scriptLanguage := "python",
    runnerSecret := "s3cr3t" }

/-- A webhook action stored under org 2, used in a publish issued for
org 1. -/
def crossOrgAction : EventActionDetailsDTO :=
  { id := 3, orgId := 2, name := "A", type := "webhook",
    url := "http://h/hook", script := "", scriptLanguage := "",
    runnerSecret := "" }

/-- An action whose type matches neither known variant. -/
def unknownTypeAction : EventActionDetailsDTO :=
  { id := 4, orgId := 1, name := "C", type := "email",
    url := "http://h/hook", script := "", scriptLanguage := "",
    runnerSecret := "" }

/-- A concrete stand-in for the HTTP client that always fails at the
transport layer. -/
def doFail : HttpRequest → DoResult := fun _ => .transportError

/-- The JSON document of a request body, when the body is JSON. -/
def Body.jsonDoc : Body → Option Json
  | .jsonBody j => some j
  | .multipartBody _ => none

/-- The dispatcher state witnessing the WaitGroup race: main has sent
the single job, closed the channel, passed `wg.Wait()` at counter zero
and returned, while no worker has started and nothing was executed. -/
def prematureReturnState : DispatchState :=
  { jobs := [0], closed := true, workers := fun _ => .notStarted,
    wg := 0, main := .returned, completed := [] }

/-- Claim C9: the code-runner request is independent of the event name —
`createRunnerRequest` never reads its `eventName` argument, so two
publishes of different events with the same payload and action produce
identical runner requests; the event name is not transmitted to a
code-runner endpoint. -/
theorem createRunnerRequest_ignores_event_name (e1 e2 : String) (p : Json)
    (a : EventActionDetailsDTO) :
    createRunnerRequest e1 p a = createRunnerRequest e2 p a := rfl

/-- Claim C10: a successfully built webhook request carries exactly one
header, `Content-Type: application/json`; in particular no
`Authorization` header and never the runner secret. -/
theorem createWebhookRequest_single_header (e : String) (p : Json)
    (a : EventActionDetailsDTO) (req : HttpRequest)
    (h : createWebhookRequest e p a = .ok req) :
    req.headers = [("Content-Type", "application/json")] := by
  unfold createWebhookRequest at h
  split at h
  · injection h with h
    rw [← h]
  · exact absurd h (by intro hcon; cases hcon)

/-- Witness for C10 at the spec example action. -/
theorem createWebhookRequest_single_header_witness :
    ({ method := "POST", url := "http://h/hook",
       headers := [("Content-Type", "application/json")],
       body := .jsonBody (PublishEvent.toJson
         { eventName := "user.created", orgId := 1,
           payload := Json.num 42 }) } : HttpRequest).headers
      = [("Content-Type", "application/json")] :=
  createWebhookRequest_single_header "user.created" (Json.num 42)
    sampleWebhookAction _ rfl

/-- Claim C3 counterexample: a publish issued for org id 1 whose
resolution yields a webhook action stored under org id 2 produces a
body whose `orgId` field is the action, not the publish, org id:
it decodes to 2 while the org id of the `Publish` call is 1. -/
theorem createWebhookRequest_orgid_not_publish_org :
    (∃ req, createWebhookRequest "user.created" (Json.num 42) crossOrgAction
        = .ok req ∧
      ∃ j, req.body.jsonDoc = some j ∧ j.lookup "orgId" = some (.num 2)) ∧
    (2 : Int) ≠ 1 := by
  exact ⟨⟨_, rfl, _, rfl, rfl⟩, by decide⟩

/-- Claim C3 (amended): for every event name, payload and webhook action
with a well-formed URL, `createWebhookRequest` produces a POST to
`action.url` with header `Content-Type: application/json` whose body
decodes back to the event name, the payload, and the org id stored on
the action (which coincides with the org id of the `Publish` call
whenever the resolved action belongs to the publishing org). -/
theorem createWebhookRequest_roundtrip (e : String) (p : Json)
    (a : EventActionDetailsDTO) (h : validURL a.url = true) :
    ∃ req, createWebhookRequest e p a = .ok req ∧
      req.method = "POST" ∧ req.url = a.url ∧
      req.headerGet "Content-Type" = some "application/json" ∧
      ∃ j, req.body.jsonDoc = some j ∧
        j.lookup "eventName" = some (.str e) ∧
        j.lookup "orgId" = some (.num a.orgId) ∧
        j.lookup "payload" = some p := by
  unfold createWebhookRequest
  rw [if_pos h]
  exact ⟨_, rfl, rfl, rfl, rfl, _, rfl, rfl, rfl, rfl⟩

/-- Witness for C3 at the spec example scenario: event `user.created`,
payload 42, action `A` of org 1. -/
theorem createWebhookRequest_roundtrip_witness :
    ∃ req, createWebhookRequest "user.created" (Json.num 42)
        sampleWebhookAction = .ok req ∧
      req.method = "POST" ∧ req.url = sampleWebhookAction.url ∧
      req.headerGet "Content-Type" = some "application/json" ∧
      ∃ j, req.body.jsonDoc = some j ∧
        j.lookup "eventName" = some (.str "user.created") ∧
        j.lookup "orgId" = some (.num sampleWebhookAction.orgId) ∧
        j.lookup "payload" = some (Json.num 42) :=
  createWebhookRequest_roundtrip "user.created" (Json.num 42)
    sampleWebhookAction rfl

/-- Claim C6: for every code-type action with a well-formed URL and
payload, the runner builder produces a POST to
`joinPath(action.url, "execute")` with an
`Authorization: Bearer runnerSecret` header, whose multipart body has
exactly the three parts `file1` (the raw script bytes, uploaded as a
file), `metadata` (JSON with the action name, script language and the
hard-coded entrypoint `file1`) and `event` (the JSON payload), in that
order. -/
theorem createRunnerRequest_wire_format (e : String) (p : Json)
    (a : EventActionDetailsDTO) (h : validURL a.url = true) :
    ∃ req, createRunnerRequest e p a = .ok req ∧
      req.method = "POST" ∧
      req.url = joinPath a.url "execute" ∧
      req.headerGet "Authorization" = some ("Bearer " ++ a.runnerSecret) ∧
      req.body = .multipartBody
        [ { name := "file1", filename := some "file1",
            contentType := some "application/octet-stream",
            content := .raw a.script },
          { name := "metadata", filename := none,
            contentType := some "application/json",
            content := .json (.obj [("name", .str a.name),
              ("lang", .str a.scriptLanguage),
              ("entrypoint", .str "file1")]) },
          { name := "event", filename := none,
            contentType := some "application/json",
            content := .json p } ] := by
  unfold createRunnerRequest
  rw [if_pos h]
  exact ⟨_, rfl, rfl, rfl, rfl, rfl⟩

/-- Witness for C6 at the spec example scenario: action `B` with script
`print(1)` in python. -/
theorem createRunnerRequest_wire_format_witness :
    ∃ req, createRunnerRequest "user.created" (Json.num 42)
        sampleRunnerAction = .ok req ∧
      req.method = "POST" ∧
      req.url = joinPath sampleRunnerAction.url "execute" ∧
      req.headerGet "Authorization"
        = some ("Bearer " ++ sampleRunnerAction.runnerSecret) ∧
      req.body = .multipartBody
        [ { name := "file1", filename := some "file1",
            contentType := some "application/octet-stream",
            content := .raw sampleRunnerAction.script },
          { name := "metadata", filename := none,
            contentType := some "application/json",
            content := .json (.obj
              [("name", .str sampleRunnerAction.name),
               ("lang", .str sampleRunnerAction.scriptLanguage),
               ("entrypoint", .str "file1")]) },
          { name := "event", filename := none,
            contentType := some "application/json",
            content := .json (Json.num 42) } ] :=
  createRunnerRequest_wire_format "user.created" (Json.num 42)
    sampleRunnerAction rfl

/-- Claim C2 evaluation: `RunEventAction` on an action whose type is
neither `code` nor `webhook` does not return an `UnknownActionTypeError`
(no such error exists in the code): the `switch` leaves the Go function
variable `createRequest` nil and the unconditional call panics, killing
the worker goroutine and the process. -/
theorem runEventAction_unknown_type_crashes
    (doRequest : HttpRequest → DoResult) (a : EventActionDetailsDTO)
    (e : String) (p : Json) (h1 : a.type ≠ ActionTypeCode)
    (h2 : a.type ≠ ActionTypeWebhook) :
    RunEventAction doRequest a e p = .crash := by
  unfold RunEventAction selectCreateRequest
  rw [if_neg h1, if_neg h2]

/-- Witness for C2 at an action of type `email`. -/
theorem runEventAction_unknown_type_crashes_witness :
    RunEventAction doFail unknownTypeAction "user.created" Json.null
      = .crash :=
  runEventAction_unknown_type_crashes doFail unknownTypeAction
    "user.created" Json.null (by decide) (by decide)

/-- Claim C5: for any action of a known type with a well-formed URL,
when the network send yields a response with any status code and the
body read succeeds, `RunEventAction` returns the non-error
`RunResponse` carrying that status code and full body — a non-2xx
status never produces an error return (the code never inspects the
status). -/
theorem runEventAction_status_surfaced (a : EventActionDetailsDTO)
    (e : String) (p : Json) (code : Nat) (body : String)
    (htype : a.type = ActionTypeCode ∨ a.type = ActionTypeWebhook)
    (hurl : validURL a.url = true) :
    RunEventAction (fun _ => .response code (.ok body)) a e p
      = .ok { code := code, body := body } := by
  rcases htype with h | h
  · simp [RunEventAction, selectCreateRequest, createRunnerRequest, h, hurl,
      ActionTypeCode, ActionTypeWebhook]
  · simp [RunEventAction, selectCreateRequest, createWebhookRequest, h, hurl,
      ActionTypeCode, ActionTypeWebhook]

/-- Witness for C5: a webhook action receiving status 500 with body
`oops` still yields a non-error result. -/
theorem runEventAction_status_surfaced_witness :
    RunEventAction (fun _ => .response 500 (.ok "oops"))
        sampleWebhookAction "user.created" Json.null
      = .ok { code := 500, body := "oops" } :=
  runEventAction_status_surfaced sampleWebhookAction "user.created"
    Json.null 500 "oops" (Or.inr rfl) rfl

/-- An action of a known type can never hit the nil-builder panic:
every branch of `RunEventAction` after a successful type dispatch is an
ordinary return. -/
theorem runEventAction_known_type_no_crash
    (doRequest : HttpRequest → DoResult) (a : EventActionDetailsDTO)
    (e : String) (p : Json)
    (htype : a.type = ActionTypeCode ∨ a.type = ActionTypeWebhook) :
    (RunEventAction doRequest a e p).isCrash = false := by
  rcases htype with h | h <;>
    simp only [RunEventAction, selectCreateRequest, h, ActionTypeCode,
      ActionTypeWebhook, String.reduceEq, reduceIte] <;>
    (repeat' split) <;>
    simp [RunOutcome.isCrash]

/-- Claim C4: `Publish` returns an error exactly when resolution fails —
the resolution error is returned unchanged and independently of the
HTTP client (no action execution is attempted), while on resolution
success `Publish` returns nil no matter how each individual action
fares at building, sending, or reading its response (every action of a
known type produces an ordinary, contained outcome). -/
theorem publish_error_iff_resolution
    (resolved : Except String (List EventActionDetailsDTO))
    (doRequest doRequest2 : HttpRequest → DoResult) (e : String)
    (p : Json) :
    (∀ err, resolved = .error err →
        Publish resolved doRequest e p = some (.error err) ∧
        Publish resolved doRequest e p = Publish resolved doRequest2 e p) ∧
    (∀ actions, resolved = .ok actions →
        (∀ a ∈ actions,
          a.type = ActionTypeCode ∨ a.type = ActionTypeWebhook) →
        Publish resolved doRequest e p
          = some (.ok (actions.map
              (fun a => RunEventAction doRequest a e p)))) := by
  constructor
  · rintro err rfl
    exact ⟨rfl, rfl⟩
  · rintro actions rfl htypes
    have hall : (actions.map (fun a => RunEventAction doRequest a e p)).any
        RunOutcome.isCrash = false := by
      rw [List.any_eq_false]
      intro o ho
      rw [List.mem_map] at ho
      obtain ⟨a, ha, rfl⟩ := ho
      rw [Bool.not_eq_true]
      exact runEventAction_known_type_no_crash doRequest a e p (htypes a ha)
    simp [Publish, hall]

/-- Witness for C4: a failed resolution propagates its error with no
execution; a successful resolution with one webhook action returns nil
even though the single action fails at the transport layer. -/
theorem publish_error_iff_resolution_witness :
    (Publish (.error "boom") doFail "user.created" Json.null
        = some (.error "boom")) ∧
    (Publish (.ok [sampleWebhookAction]) doFail "user.created" Json.null
        = some (.ok [.err .transportError])) := by
  constructor
  · exact ((publish_error_iff_resolution (.error "boom") doFail doFail
      "user.created" Json.null).1 "boom" rfl).1
  · have h := (publish_error_iff_resolution (.ok [sampleWebhookAction])
      doFail doFail "user.created" Json.null).2 [sampleWebhookAction] rfl
      (by intro a ha; rw [List.mem_singleton] at ha; subst ha; right; rfl)
    rw [h]
    rfl

/-- In a `Publish` call that resolved zero actions, no transition ever
puts a job in the channel, completes an execution, or moves a worker
into the `running` state. -/
theorem dispatch_empty_invariant (s : DispatchState)
    (h : Relation.ReflTransGen (DispatchStep 0) initDispatch s) :
    s.jobs = [] ∧ s.completed = [] ∧
    ∀ i, (s.workers i).isRunning = false := by
  induction h with
  | refl => exact ⟨rfl, rfl, fun i => rfl⟩
  | tail hab hstep ih =>
    obtain ⟨hj, hc, hw⟩ := ih
    cases hstep with
    | mainSend k hpc hk => exact absurd hk (Nat.not_lt_zero k)
    | mainClose hpc => exact ⟨hj, hc, hw⟩
    | mainReturn hpc hwg => exact ⟨hj, hc, hw⟩
    | workerStart i hwi =>
      refine ⟨hj, hc, fun i2 => ?_⟩
      rcases eq_or_ne i2 i with rfl | hne
      · simp [Function.update_same, WorkerState.isRunning]
      · simp [Function.update_apply, hne, hw i2]
    | workerTake i j rest hwi hjj =>
      rw [hj] at hjj
      cases hjj
    | workerFinish i j hwi =>
      have hri := hw i
      rw [hwi] at hri
      simp [WorkerState.isRunning] at hri
    | workerExit i hwi hje hcl =>
      refine ⟨hj, hc, fun i2 => ?_⟩
      rcases eq_or_ne i2 i with rfl | hne
      · simp [Function.update_same, WorkerState.isRunning]
      · simp [Function.update_apply, hne, hw i2]

/-- Claim C7: when resolution succeeds with an empty list, `Publish`
returns success with zero outcomes, and in every reachable dispatcher
state of that publish nothing was completed, the job channel is empty
and no worker ever executes an action — no request is built and no
network call is attempted. -/
theorem publish_empty_actions (doRequest : HttpRequest → DoResult)
    (e : String) (p : Json) (s : DispatchState)
    (h : DispatchReachable 0 s) :
    Publish (.ok []) doRequest e p = some (.ok []) ∧
    s.completed = [] ∧ s.jobs = [] ∧
    ∀ i, (s.workers i).isRunning = false := by
  obtain ⟨hj, hc, hw⟩ := dispatch_empty_invariant s h
  exact ⟨rfl, hc, hj, hw⟩

/-- Witness for C7 at the initial dispatcher state. -/
theorem publish_empty_actions_witness :
    Publish (.ok []) doFail "user.created" Json.null = some (.ok []) ∧
    initDispatch.completed = [] ∧ initDispatch.jobs = [] ∧
    ∀ i, (initDispatch.workers i).isRunning = false :=
  publish_empty_actions doFail "user.created" Json.null initDispatch
    Relation.ReflTransGen.refl

/-- Claim C8: in every reachable state of a `Publish` dispatch, at most
3 actions are executing their network call simultaneously — the count
of in-flight executions is bounded by the fixed pool of 3 workers, each
of which holds at most one job at a time. -/
theorem publish_concurrency_bound (N : Nat) (s : DispatchState)
    (h : DispatchReachable N s) : inflight s ≤ 3 := by
  have h3 : ((List.finRange numWorkers).filter
        (fun i => (s.workers i).isRunning)).length
      ≤ (List.finRange numWorkers).length :=
    List.length_filter_le _ _
  simpa [inflight, List.length_finRange, numWorkers] using h3

/-- Witness for C8 at the initial dispatcher state. -/
theorem publish_concurrency_bound_witness : inflight initDispatch ≤ 3 :=
  publish_concurrency_bound 1 initDispatch Relation.ReflTransGen.refl

/-- Claim C1 evaluation: with one subscribed action there is an
interleaving — main sends the job, closes the channel and passes
`wg.Wait()` at counter zero before any worker has run `wg.Add(1)` — in
which `Publish` has returned although no execution has completed (the
job still sits in the channel).  The WaitGroup join fails because
`wg.Add(1)` is executed inside each worker goroutine instead of before
`wg.Wait()`. -/
theorem publish_wait_race :
    DispatchReachable 1 prematureReturnState ∧
    prematureReturnState.main = .returned ∧
    prematureReturnState.completed = [] ∧
    prematureReturnState.jobs = [0] := by
  refine ⟨?_, rfl, rfl, rfl⟩
  have h1 : DispatchStep 1 initDispatch
      { jobs := [0], closed := false, workers := fun _ => .notStarted,
        wg := 0, main := .send 1, completed := [] } :=
    DispatchStep.mainSend initDispatch 0 rfl Nat.zero_lt_one
  have h2 : DispatchStep 1
      { jobs := [0], closed := false, workers := fun _ => .notStarted,
        wg := 0, main := .send 1, completed := [] }
      { jobs := [0], closed := true, workers := fun _ => .notStarted,
        wg := 0, main := .wait, completed := [] } :=
    DispatchStep.mainClose _ rfl
  have h3 : DispatchStep 1
      { jobs := [0], closed := true, workers := fun _ => .notStarted,
        wg := 0, main := .wait, completed := [] }
      prematureReturnState :=
    DispatchStep.mainReturn _ rfl rfl
  exact Relation.ReflTransGen.tail
    (Relation.ReflTransGen.tail (Relation.ReflTransGen.single h1) h2) h3
